import Mathlib

/-!
Verification of the request-routing and execution engine of the
claude-proxy-bridge repository: a shallow embedding of the router
(`src/router.py`), the fallback orchestrators (`src/proxy_server.py`),
the prompt builder (`src/openai_types.py`) and the streaming backends
(`src/claude_runner.py`, `src/http_runner.py`), together with theorems
settling the documented behavioural properties.

Strings are modelled with Lean `String` (a list of characters); machine
`int` values that stay small are modelled with `Nat`/`Int`.  The Python
expression `int(len(text)/2.5)` is modelled as `len * 2 / 5` (floor),
which coincides with the float computation for every realistic length.
Regular-expression matching (`_count_pattern_matches`) is abstracted as
an arbitrary match-count function, so theorems quantifying over it hold
for the concrete pattern sets as a special case.
-/

/-- Characters considered whitespace by Python `str.strip` (ASCII subset). -/
def isPySpace (c : Char) : Bool :=
  c = ' ' || c = '\t' || c = '\n' || c = '\r' || c = '\x0b' || c = '\x0c'

/-- Embeds Python `str.strip()` for the ASCII strings this system handles. -/
def pyStrip (s : String) : String :=
  String.mk (((s.data.dropWhile isPySpace).reverse.dropWhile isPySpace).reverse)

/-- ASCII lower-casing of one character. -/
def pyCharLower (c : Char) : Char :=
  if 'A' ≤ c ∧ c ≤ 'Z' then Char.ofNat (c.toNat + 32) else c

/-- Embeds Python `str.lower()` for the ASCII strings this system handles. -/
def pyLower (s : String) : String :=
  String.mk (s.data.map pyCharLower)

/-- Embeds Python `sep.join(parts)`. -/
def joinSep (sep : String) : List String → String
  | [] => ""
  | s :: rest => rest.foldl (fun acc t => acc ++ sep ++ t) s

/-- Whether `pat` occurs at the head of `l`. -/
def matchesAt : List Char → List Char → Bool
  | [], _ => true
  | _ :: _, [] => false
  | p :: ps, c :: cs => p = c && matchesAt ps cs

/-- Fuelled scanner counting non-overlapping occurrences, as Python
`str.count` does: after a match the scan resumes past the matched text. -/
def countSubstrFuel (pat : List Char) : Nat → List Char → Nat
  | 0, _ => 0
  | _ + 1, [] => 0
  | fuel + 1, c :: rest =>
    if matchesAt pat (c :: rest) then
      1 + countSubstrFuel pat fuel (rest.drop (pat.length - 1))
    else
      countSubstrFuel pat fuel rest

/-- Embeds Python `s.count(pat)` for a non-empty pattern. -/
def countSubstr (pat : String) (s : String) : Nat :=
  countSubstrFuel pat.data s.data.length s.data

/-- Message roles accepted by the OpenAI-compatible request schema
(`openai_types.ChatMessage.role`). -/
inductive Role
  | system
  | user
  | assistant
deriving DecidableEq, Repr

/-- One chat message (`openai_types.ChatMessage`). -/
structure ChatMessage where
  role : Role
  content : String
deriving DecidableEq, Repr

/-- An incoming chat request (`openai_types.ChatCompletionRequest`);
generation parameters that the routing engine never reads are omitted. -/
structure ChatCompletionRequest where
  model : String
  messages : List ChatMessage
  stream : Bool := false
deriving DecidableEq, Repr

/-- A backend model descriptor (`config.ModelConfig`); the provider
coordinates that the routing engine never reads are omitted. -/
structure ModelConfig where
  name : String
  model_id : String
  port : Nat
deriving DecidableEq, Repr

/-- Request classification buckets (`router.Scenario`). -/
inductive Scenario
  | complex
  | code_generation
  | long_context
  | moderate
  | simple
deriving DecidableEq, Repr

/-- Result of the smart router's analysis (`router.RoutingDecision`). -/
structure RoutingDecision where
  scenario : Scenario
  model : ModelConfig
  reason : String
  fallback_chain : List ModelConfig
deriving DecidableEq, Repr

/-- The five fixed regular-expression signal sets of `router.py`
(`_COMPLEX_PATTERNS`, `_REASONING_PATTERNS`, `_CODE_PATTERNS`,
`_SIMPLE_PATTERNS`, `_MODERATE_PATTERNS`). -/
inductive PatternClass
  | complexP
  | reasoningP
  | codeP
  | simpleP
  | moderateP
deriving DecidableEq, Repr

/-- Abstract form of `router._count_pattern_matches`: how many patterns of
the given class match in the given text. -/
def Matcher : Type := String → PatternClass → Nat

/-- The default Opus model built by `config._build_defaults`. -/
def OPUS : ModelConfig := { name := "opus", model_id := "claude-opus-4-6", port := 5001 }

/-- The default Sonnet model built by `config._build_defaults`. -/
def SONNET : ModelConfig := { name := "sonnet", model_id := "claude-sonnet-4-6", port := 5002 }

/-- The default Haiku model built by `config._build_defaults`. -/
def HAIKU : ModelConfig := { name := "haiku", model_id := "claude-haiku-4-5-20251001", port := 5003 }

/-- The default `config.MODEL_MAP` lookup (name or model id, plus the
common haiku alias). -/
def defaultModelMap : String → Option ModelConfig
  | "opus" => some OPUS
  | "claude-opus-4-6" => some OPUS
  | "sonnet" => some SONNET
  | "claude-sonnet-4-6" => some SONNET
  | "haiku" => some HAIKU
  | "claude-haiku-4-5-20251001" => some HAIKU
  | "claude-haiku-4-5" => some HAIKU
  | _ => none

/-- The configuration surface read by the router and the orchestrators
(the relevant fields of `config.Settings`): dictionaries are modelled as
functions into `Option`. -/
structure RoutingSettings where
  long_context_threshold : Nat
  max_fallback_attempts : Nat
  model_map : String → Option ModelConfig
  fallback_overrides : Scenario → Option (List String)
  scenario_overrides : Scenario → Option String

/-- Embeds `router.estimate_tokens`: rough token estimate, about 4 chars
per token for prose and 2.5 for code-heavy text. -/
def estimate_tokens (text : String) : Nat :=
  if text = "" then 0
  else
    let code_indicators :=
      countSubstr "```" text + countSubstr "def " text + countSubstr "function " text
    if 2 ≤ code_indicators then max 1 (text.length * 2 / 5)
    else max 1 (text.length / 4)

/-- Embeds `router.estimate_request_tokens`: total estimate over all
message contents. -/
def estimate_request_tokens (req : ChatCompletionRequest) : Nat :=
  req.messages.foldl (fun total m => total + estimate_tokens m.content) 0

/-- The last user message with non-empty content (the reversed scan of
`classify_scenario`), or the empty string. -/
def lastUserMsg (ms : List ChatMessage) : String :=
  match ms.reverse.find? (fun m => decide (m.role = Role.user ∧ m.content ≠ "")) with
  | some m => m.content
  | none => ""

/-- The space-joined concatenation of the non-empty message contents
(`all_content` in `classify_scenario`). -/
def allContent (req : ChatCompletionRequest) : String :=
  joinSep " " ((req.messages.filter (fun m => m.content != "")).map (fun m => m.content))

/-- The four scenario scores computed by `router.classify_scenario`,
with pattern matching abstracted by a `Matcher`. -/
structure Scores where
  complexS : Nat
  codeS : Nat
  simpleS : Nat
  moderateS : Nat
deriving DecidableEq, Repr

/-- Embeds the score computation block of `router.classify_scenario`
(lines between the long-context check and the decision chain). -/
def routing_scores (matcher : Matcher) (req : ChatCompletionRequest) : Scores :=
  let token_count := estimate_request_tokens req
  let all_content := allContent req
  let last_user_msg := lastUserMsg req.messages
  let message_count := req.messages.length
  let has_system_prompt := req.messages.any (fun m => decide (m.role = Role.system))
  { complexS :=
      matcher all_content PatternClass.complexP + matcher all_content PatternClass.reasoningP
        + (if 10 < message_count then 2 else 0)
        + (if has_system_prompt ∧ 2000 < all_content.length then 1 else 0)
  , codeS :=
      matcher all_content PatternClass.codeP
        + (if 2 ≤ countSubstr "```" all_content then 2 else 0)
  , simpleS :=
      matcher last_user_msg PatternClass.simpleP
        + (if token_count < 50 ∧ message_count ≤ 2 then 2 else 0)
        + (if ¬has_system_prompt ∧ token_count < 100 then 1 else 0)
  , moderateS :=
      matcher all_content PatternClass.moderateP
        + (if 100 ≤ token_count ∧ token_count ≤ 2000 ∧ message_count ≤ 5 then 1 else 0) }

/-- Embeds `router.classify_scenario`: long-context short-circuit first,
then the fixed decision chain over the four scores, with the exact
reason strings of the source. -/
def classify_scenario (S : RoutingSettings) (matcher : Matcher)
    (req : ChatCompletionRequest) : Scenario × String :=
  let token_count := estimate_request_tokens req
  let thr := S.long_context_threshold
  if thr < token_count then
    (Scenario.long_context, s!"Token count ({token_count}) exceeds threshold ({thr})")
  else
    let sc := routing_scores matcher req
    let c := sc.complexS
    let k := sc.codeS
    let sp := sc.simpleS
    let mo := sc.moderateS
    let message_count := req.messages.length
    if 3 ≤ c then
      (Scenario.complex, s!"High complexity score ({c}): reasoning/analysis detected")
    else if 3 ≤ k then
      (Scenario.code_generation, s!"Code generation detected (score={k})")
    else if 3 ≤ sp ∧ c < 2 ∧ k < 2 ∧ mo < 2 then
      (Scenario.simple, s!"Simple query detected (score={sp}, tokens={token_count})")
    else if 2 ≤ k then
      (Scenario.code_generation, s!"Code-related content detected (score={k})")
    else if 2 ≤ c then
      (Scenario.complex, s!"Moderate complexity detected (score={c})")
    else if 2 ≤ mo ∨ 200 < token_count then
      (Scenario.moderate, s!"Moderate task detected (score={mo}, tokens={token_count})")
    else
      (Scenario.moderate, s!"General request (tokens={token_count}, msgs={message_count})")

/-- Embeds `router.DEFAULT_FALLBACK_CHAINS`. -/
def DEFAULT_FALLBACK_CHAINS : Scenario → List ModelConfig
  | Scenario.complex => [OPUS, SONNET, HAIKU]
  | Scenario.code_generation => [SONNET, OPUS, HAIKU]
  | Scenario.long_context => [OPUS, SONNET]
  | Scenario.moderate => [SONNET, HAIKU, OPUS]
  | Scenario.simple => [HAIKU, SONNET]

/-- Embeds `router.DEFAULT_SCENARIO_MODELS`. -/
def DEFAULT_SCENARIO_MODELS : Scenario → ModelConfig
  | Scenario.complex => OPUS
  | Scenario.code_generation => SONNET
  | Scenario.long_context => OPUS
  | Scenario.moderate => SONNET
  | Scenario.simple => HAIKU

/-- Embeds `router.get_fallback_chain`: a configured override (a
non-empty list in Python's truthiness) is resolved through the model
map, unknown identifiers being skipped; if nothing resolves, the
built-in default chain is used. -/
def get_fallback_chain (S : RoutingSettings) (scenario : Scenario) : List ModelConfig :=
  match S.fallback_overrides scenario with
  | some ov =>
    if ov = [] then DEFAULT_FALLBACK_CHAINS scenario
    else
      let chain := ov.filterMap S.model_map
      if chain = [] then DEFAULT_FALLBACK_CHAINS scenario else chain
  | none => DEFAULT_FALLBACK_CHAINS scenario

/-- Embeds `router.get_scenario_model`: a configured override (a
non-empty string in Python's truthiness) is resolved through the model
map, falling back to the built-in default on an unknown identifier. -/
def get_scenario_model (S : RoutingSettings) (scenario : Scenario) : ModelConfig :=
  match S.scenario_overrides scenario with
  | some ov =>
    if ov = "" then DEFAULT_SCENARIO_MODELS scenario
    else
      match S.model_map ov with
      | some mc => mc
      | none => DEFAULT_SCENARIO_MODELS scenario
  | none => DEFAULT_SCENARIO_MODELS scenario

/-- The smart-routing branch of `router.route_request` (no explicit
model honored): pick the scenario model and remove it from the chain. -/
def route_request_auto (S : RoutingSettings) (scenario : Scenario) (reason : String) :
    RoutingDecision :=
  let model := get_scenario_model S scenario
  let fallback := (get_fallback_chain S scenario).filter (fun m => m.model_id != model.model_id)
  { scenario := scenario, model := model, reason := reason, fallback_chain := fallback }

/-- Embeds `router.route_request`: honor an explicit resolvable model
(removing it from the scenario's fallback chain), otherwise smart-route. -/
def route_request (S : RoutingSettings) (matcher : Matcher)
    (req : ChatCompletionRequest) : RoutingDecision :=
  let scr := classify_scenario S matcher req
  let detected := scr.2
  let requested_model := pyStrip (pyLower req.model)
  match S.model_map requested_model with
  | some explicit =>
    if requested_model ≠ "auto" ∧ requested_model ≠ "smart" ∧ requested_model ≠ "router" then
      { scenario := scr.1
      , model := explicit
      , reason := s!"Explicit model request. Scenario detected: {detected}"
      , fallback_chain :=
          (get_fallback_chain S scr.1).filter (fun m => m.model_id != explicit.model_id) }
    else route_request_auto S scr.1 scr.2
  | none => route_request_auto S scr.1 scr.2

/-- Python exception classes relevant to the orchestrators: the backends
signal recoverable failures with `RuntimeError`; anything else (for
example `FileNotFoundError` from `Settings.resolve_claude_cli`) is some
other exception class. -/
inductive PyError
  | runtimeError (msg : String)
  | otherError (msg : String)
deriving DecidableEq, Repr

/-- How Python renders `last_error` inside an f-string: the message of
the exception, or `None` when no exception was recorded. -/
def optErrStr : Option String → String
  | none => "None"
  | some m => m

/-- The exit state of the `for` loop in `proxy_server.run_with_fallback`. -/
inductive LoopExit
  | success (text : String) (mc : ModelConfig)
  | propagate (msg : String)
  | fellThrough (lastError : Option String)
deriving DecidableEq, Repr

/-- The loop of `proxy_server.run_with_fallback`, instrumented with the
list of models actually invoked: try each chain entry in order, catch
only `RuntimeError`, break once the index reaches `max_attempts`, and
let any other exception propagate. -/
def rwfLoop (backend : ModelConfig → Except PyError String) (maxAttempts : Nat) :
    List ModelConfig → Nat → Option String → LoopExit × List ModelConfig
  | [], _, lastError => (LoopExit.fellThrough lastError, [])
  | mc :: rest, i, _ =>
    match backend mc with
    | Except.ok text => (LoopExit.success text mc, [mc])
    | Except.error (PyError.runtimeError m) =>
      if maxAttempts ≤ i then (LoopExit.fellThrough (some m), [mc])
      else
        let r := rwfLoop backend maxAttempts rest (i + 1) (some m)
        (r.1, mc :: r.2)
    | Except.error (PyError.otherError m) => (LoopExit.propagate m, [mc])

/-- The aggregate failure message raised by `run_with_fallback`, naming
`chain[min(max_attempts, len(chain) - 1)]`. -/
def aggregateMsg (chain : List ModelConfig) (maxAttempts : Nat)
    (lastError : Option String) : String :=
  let cited := (chain.getD (min maxAttempts (chain.length - 1)) OPUS).name
  let le := optErrStr lastError
  s!"All models failed. Last error from {cited}: {le}"

/-- The observable outcome of `proxy_server.run_with_fallback`. -/
inductive RunResult
  | success (text : String) (mc : ModelConfig)
  | exhausted (msg : String)
  | propagated (msg : String)
deriving DecidableEq, Repr

/-- Embeds `proxy_server.run_with_fallback`, instrumented with the list
of models actually invoked: the attempt chain is
`[decision.model] + decision.fallback_chain[:max_attempts]`; a walk that
exhausts its attempts raises the aggregate `RuntimeError`. -/
def run_with_fallback (maxAttempts : Nat) (decision : RoutingDecision)
    (backend : ModelConfig → Except PyError String) : RunResult × List ModelConfig :=
  let chain := decision.model :: decision.fallback_chain.take maxAttempts
  match rwfLoop backend maxAttempts chain 0 none with
  | (LoopExit.success t mc, tried) => (RunResult.success t mc, tried)
  | (LoopExit.propagate m, tried) => (RunResult.propagated m, tried)
  | (LoopExit.fellThrough le, tried) =>
    (RunResult.exhausted (aggregateMsg chain maxAttempts le), tried)

/-- How one streaming attempt against one model ends, after yielding its
fragments: natural completion, a `RuntimeError`, or some other exception. -/
inductive StreamOutcome
  | success
  | failRuntime (msg : String)
  | failOther (msg : String)
deriving DecidableEq, Repr

/-- The observable behaviour of one `stream_claude` attempt for one
model: the text fragments it yields, then how it ends. -/
structure StreamBehavior where
  frags : List String
  outcome : StreamOutcome
deriving DecidableEq, Repr

/-- How the orchestrated stream ends: normal generator completion, or an
exception propagating out of the generator. -/
inductive StreamEnd
  | completed
  | raised (e : PyError)
deriving DecidableEq, Repr

/-- The aggregate failure message raised by `stream_with_fallback`. -/
def streamAggMsg (lastError : Option String) : String :=
  let le := optErrStr lastError
  s!"All stream models failed. Last error: {le}"

/-- The trailing error fragment `stream_with_fallback` yields when an
attempt fails after output has begun. -/
def errFragment (m : String) : String := s!"\n\n[Error: {m}]"

/-- The loop of `proxy_server.stream_with_fallback`, instrumented with
the list of models attempted: yield each fragment tagged with its model;
catch only `RuntimeError`; once any fragment has been yielded, a failure
yields one visible error fragment for the same model and ends the
stream; a pre-output failure advances the chain until the attempt
budget is spent. -/
def swfLoop (sb : ModelConfig → StreamBehavior) (maxAttempts : Nat) :
    List ModelConfig → Nat → Option String →
      List (String × ModelConfig) × StreamEnd × List ModelConfig
  | [], _, lastError =>
    ([], StreamEnd.raised (PyError.runtimeError (streamAggMsg lastError)), [])
  | mc :: rest, i, _ =>
    let b := sb mc
    let out := b.frags.map (fun t => (t, mc))
    match b.outcome with
    | StreamOutcome.success => (out, StreamEnd.completed, [mc])
    | StreamOutcome.failOther m => (out, StreamEnd.raised (PyError.otherError m), [mc])
    | StreamOutcome.failRuntime m =>
      if b.frags ≠ [] then
        (out ++ [(errFragment m, mc)], StreamEnd.completed, [mc])
      else if maxAttempts ≤ i then
        (out, StreamEnd.raised (PyError.runtimeError (streamAggMsg (some m))), [mc])
      else
        let r := swfLoop sb maxAttempts rest (i + 1) (some m)
        (out ++ r.1, r.2.1, mc :: r.2.2)

/-- Embeds `proxy_server.stream_with_fallback`, instrumented with the
list of models attempted: same chain construction as the non-streaming
orchestrator, yielding `(fragment, model)` pairs. -/
def stream_with_fallback (maxAttempts : Nat) (decision : RoutingDecision)
    (sb : ModelConfig → StreamBehavior) :
    List (String × ModelConfig) × StreamEnd × List ModelConfig :=
  let chain := decision.model :: decision.fallback_chain.take maxAttempts
  swfLoop sb maxAttempts chain 0 none

/-- The observable behaviour of the Claude CLI child process in
`claude_runner.stream_claude`: the stdout lines read before EOF or a
read timeout, whether a read timed out, and the exit code. -/
structure ProcRun where
  lines : List String
  readTimedOut : Bool
  returncode : Int
deriving DecidableEq, Repr

/-- Embeds `claude_runner.stream_claude` over an abstract process: a
spawn failure (for example `FileNotFoundError` from CLI resolution)
propagates as a non-`RuntimeError` exception; after a successful spawn
the generator yields the text extracted from each line read
(`_extract_text_from_ndjson_line` and the truthiness filter are
abstracted by `ext`) and then always completes normally — a read
timeout or a non-zero exit code is only logged, never raised. -/
def stream_claude (ext : String → Option String) (spawn : Except String ProcRun) :
    List String × StreamEnd :=
  match spawn with
  | Except.error e => ([], StreamEnd.raised (PyError.otherError e))
  | Except.ok run => (run.lines.filterMap ext, StreamEnd.completed)

/-- The observable behaviour of the HTTP connection in
`http_runner.stream_http`: response status, response body (read only on
a non-200 status) and the SSE lines of the stream. -/
structure HttpStreamResp where
  status : Nat
  body : String
  lines : List String
deriving DecidableEq, Repr

/-- The SSE line loop of `http_runner.stream_http`: skip blank and
non-`data: ` lines, stop at the `[DONE]` sentinel, and yield the delta
content of each decodable chunk (JSON decoding, choice extraction and
the truthiness filter are abstracted by `parseDelta`). -/
def sseLines (parseDelta : String → Option String) : List String → List String
  | [] => []
  | line :: rest =>
    let l := pyStrip line
    if l = "" then sseLines parseDelta rest
    else if ¬ matchesAt "data: ".data l.data then sseLines parseDelta rest
    else
      let ds := String.mk (l.data.drop 6)
      if ds = "[DONE]" then []
      else
        match parseDelta ds with
        | some c => c :: sseLines parseDelta rest
        | none => sseLines parseDelta rest

/-- Embeds `http_runner.stream_http` over an abstract connection: a
connection-level failure propagates as a non-`RuntimeError` httpx
exception; a non-200 status raises `RuntimeError` before yielding
anything; otherwise the SSE lines are consumed to `[DONE]` or close. -/
def stream_http (parseDelta : String → Option String)
    (conn : Except String HttpStreamResp) (model_id : String) : List String × StreamEnd :=
  match conn with
  | Except.error e => ([], StreamEnd.raised (PyError.otherError e))
  | Except.ok resp =>
    if resp.status ≠ 200 then
      let st := resp.status
      let body := String.mk (resp.body.data.take 500)
      ([], StreamEnd.raised (PyError.runtimeError s!"HTTP {st} from {model_id}: {body}"))
    else (sseLines parseDelta resp.lines, StreamEnd.completed)

/-- The `system_parts` list built by `to_prompt`. -/
def system_parts (req : ChatCompletionRequest) : List String :=
  req.messages.filterMap (fun m => if m.role = Role.system then some m.content else none)

/-- The `conversation_parts` list built by `to_prompt`: note that even
an empty-content user or assistant message contributes a (non-empty)
role-prefixed line. -/
def conversation_parts (req : ChatCompletionRequest) : List String :=
  req.messages.filterMap (fun m =>
    match m.role with
    | Role.system => none
    | Role.user => some ("Human: " ++ m.content)
    | Role.assistant => some ("Assistant: " ++ m.content))

/-- Embeds `openai_types.ChatCompletionRequest.to_prompt`: system
messages joined as the system prompt; user/assistant messages joined as
a conversation transcript; if there are none, all non-empty message
contents joined as a fallback. -/
def to_prompt (req : ChatCompletionRequest) : Option String × String :=
  let system_prompt :=
    if system_parts req = [] then none else some (joinSep "\n\n" (system_parts req))
  let prompt :=
    if conversation_parts req = [] then
      joinSep "\n\n" ((req.messages.map (fun m => m.content)).filter (fun c => c != ""))
    else joinSep "\n\n" (conversation_parts req)
  (system_prompt, prompt)

/-- One server-sent chunk of `proxy_server._stream_sse`, reduced to the
fields the claims are about (attributed model, delta kind). -/
inductive SSEItem
  | roleChunk (model : String)
  | contentChunk (text : String) (model : String)
  | doneChunk (model : String)
  | doneSentinel
deriving DecidableEq, Repr

/-- The running `actual_model` variable of `_stream_sse`: initialized to
the decision's primary model id and overwritten by each yielded pair. -/
def lastModelId (init : String) (out : List (String × ModelConfig)) : String :=
  out.foldl (fun _ p => p.2.model_id) init

/-- Embeds `proxy_server._stream_sse`: the role chunk (built from the
primary model) is yielded before the orchestrator runs; each fragment
becomes a content chunk carrying the model that yielded it; a
`RuntimeError` from the orchestrator becomes a trailing error content
chunk; the done chunk and `[DONE]` sentinel follow unless a
non-`RuntimeError` exception kills the generator (`Bool` flag: did the
stream end cleanly). -/
def stream_sse (maxAttempts : Nat) (decision : RoutingDecision)
    (sb : ModelConfig → StreamBehavior) : List SSEItem × Bool :=
  let first := SSEItem.roleChunk decision.model.model_id
  let r := stream_with_fallback maxAttempts decision sb
  let items := r.1.map (fun p => SSEItem.contentChunk p.1 p.2.model_id)
  let actual := lastModelId decision.model.model_id r.1
  match r.2.1 with
  | StreamEnd.completed =>
    (first :: items ++ [SSEItem.doneChunk actual, SSEItem.doneSentinel], true)
  | StreamEnd.raised (PyError.runtimeError m) =>
    (first :: items
      ++ [SSEItem.contentChunk (errFragment m) actual, SSEItem.doneChunk actual,
          SSEItem.doneSentinel], true)
  | StreamEnd.raised (PyError.otherError _) => (first :: items, false)

/-- Embeds `proxy_server.create_proxy_app._resolve_routing`: smart-route
when enabled and the declared model is a router sentinel, otherwise
route a copy of the request naming this proxy's own model. -/
def resolve_routing (S : RoutingSettings) (matcher : Matcher) (smart : Bool)
    (proxyModel : ModelConfig) (req : ChatCompletionRequest) : RoutingDecision :=
  let lowered := pyLower req.model
  if smart ∧ (lowered = "auto" ∨ lowered = "smart" ∨ lowered = "router") then
    route_request S matcher req
  else route_request S matcher { req with model := proxyModel.model_id }

/-- The observable outcome of the `/v1/chat/completions` endpoint
(authentication, headers and chunk ids elided). -/
inductive HttpOutcome
  | clientError (status : Nat) (detail : String)
  | serverError (status : Nat) (detail : String)
  | completion (model_id : String) (text : String)
  | sse (items : List SSEItem) (clean : Bool)
deriving DecidableEq, Repr

/-- Embeds `proxy_server.create_proxy_app.chat_completions`: the empty
prompt is rejected with status 400 before routing; a streamed request
returns the SSE stream; otherwise the fallback run's `RuntimeError`
maps to 502 and any other propagated exception to the framework's
generic 500. -/
def chat_completions (S : RoutingSettings) (matcher : Matcher) (smart : Bool)
    (proxyModel : ModelConfig) (backend : ModelConfig → Except PyError String)
    (sb : ModelConfig → StreamBehavior) (req : ChatCompletionRequest) : HttpOutcome :=
  let p := to_prompt req
  if p.2 = "" then HttpOutcome.clientError 400 "No prompt content in messages"
  else
    let decision := resolve_routing S matcher smart proxyModel req
    if req.stream then
      let r := stream_sse S.max_fallback_attempts decision sb
      HttpOutcome.sse r.1 r.2
    else
      match run_with_fallback S.max_fallback_attempts decision backend with
      | (RunResult.success t mc, _) => HttpOutcome.completion mc.model_id t
      | (RunResult.exhausted m, _) => HttpOutcome.serverError 502 m
      | (RunResult.propagated m, _) => HttpOutcome.serverError 500 m

/-- The long-context reason string of `classify_scenario`. -/
def mkLongReason (tc thr : Nat) : String :=
  s!"Token count ({tc}) exceeds threshold ({thr})"

/-- The aggregate message of `run_with_fallback` expressed through the
name of the model it cites and the message of the last error. -/
def mkAggregateMsg (cited lastMsg : String) : String :=
  s!"All models failed. Last error from {cited}: {lastMsg}"

/-- Follows the spec's wording for the classification decision chain
(first match wins over the four scores), for comparison with
`classify_scenario`. -/
def specDecisionOrder (c k sp mo tokens : Nat) : Scenario :=
  if 3 ≤ c then Scenario.complex
  else if 3 ≤ k then Scenario.code_generation
  else if 3 ≤ sp ∧ c < 2 ∧ k < 2 ∧ mo < 2 then Scenario.simple
  else if 2 ≤ k then Scenario.code_generation
  else if 2 ≤ c then Scenario.complex
  else if 2 ≤ mo ∨ 200 < tokens then Scenario.moderate
  else Scenario.moderate

/-- The plain concatenation of all message contents. -/
def concatContents (req : ChatCompletionRequest) : String :=
  req.messages.foldl (fun acc m => acc ++ m.content) ""

/-- Follows the spec's wording for token estimation: the code-indicator
test is applied once to the concatenated text of the messages, the
per-text length rule then follows it; for comparison with
`estimate_request_tokens`. -/
def spec_estimate_request_tokens (req : ChatCompletionRequest) : Nat :=
  let all := concatContents req
  let indicators :=
    countSubstr "```" all + countSubstr "def " all + countSubstr "function " all
  req.messages.foldl
    (fun total m =>
      total +
        (if m.content = "" then 0
         else if 2 ≤ indicators then max 1 (m.content.length * 2 / 5)
         else max 1 (m.content.length / 4)))
    0

/-- The per-message estimation rule: empty text estimates to 0; a text
whose own code-indicator count is at least 2 estimates to `length/2.5`;
otherwise `length/4`; minimum 1 per non-empty text. -/
def spec_estimate_text (t : String) : Nat :=
  if t = "" then 0
  else if 2 ≤ countSubstr "```" t + countSubstr "def " t + countSubstr "function " t then
    max 1 (t.length * 2 / 5)
  else max 1 (t.length / 4)

/-- A match counter that matches nothing; any fixed pattern evaluation
instantiates the matcher-generic theorems. -/
def matcher0 : Matcher := fun _ _ => 0

/-- Default settings: three Claude CLI models, no overrides, threshold
50000, two fallback attempts (the env-var defaults of `config.py`). -/
def settingsNoOverride : RoutingSettings :=
  { long_context_threshold := 50000
  , max_fallback_attempts := 2
  , model_map := defaultModelMap
  , fallback_overrides := fun _ => none
  , scenario_overrides := fun _ => none }

/-- Settings whose per-scenario fallback-chain override lists the same
identifier twice (as `ROUTING_FALLBACK_*` env vars allow). -/
def settingsDupOverride : RoutingSettings :=
  { settingsNoOverride with fallback_overrides := fun _ => some ["haiku", "haiku"] }

/-- Settings with a tiny long-context threshold. -/
def settingsThreshold1 : RoutingSettings :=
  { settingsNoOverride with long_context_threshold := 1 }

/-- A request explicitly naming sonnet with one short user message. -/
def reqSonnetHi : ChatCompletionRequest :=
  { model := "sonnet", messages := [{ role := Role.user, content := "hi" }] }

/-- A request whose single user message has empty content. -/
def reqEmptyUser : ChatCompletionRequest :=
  { model := "auto", messages := [{ role := Role.user, content := "" }] }

/-- A request with two messages each containing exactly one fenced
code-block marker (one code indicator each, two in concatenation). -/
def reqTwoCodeMsgs : ChatCompletionRequest :=
  { model := "auto"
  , messages :=
      [{ role := Role.user, content := "```aaaaaaaaa" },
       { role := Role.user, content := "```aaaaaaaaa" }] }

/-- A request of eight characters, two estimated tokens. -/
def reqLong : ChatCompletionRequest :=
  { model := "auto", messages := [{ role := Role.user, content := "aaaaaaaa" }] }

/-- A routing decision fixture: sonnet primary, haiku then opus backup. -/
def decFix : RoutingDecision :=
  { scenario := Scenario.moderate
  , model := SONNET
  , reason := "r"
  , fallback_chain := [HAIKU, OPUS] }

/-- A backend whose every attempt succeeds. -/
def backendOk : ModelConfig → Except PyError String := fun _ => Except.ok "ok"

/-- A backend whose every attempt raises `RuntimeError`. -/
def backendRuntimeAll : ModelConfig → Except PyError String :=
  fun mc => Except.error (PyError.runtimeError ("boom-" ++ mc.name))

/-- A backend whose every attempt raises a non-`RuntimeError` exception
(as `Settings.resolve_claude_cli` does when the CLI binary is missing). -/
def backendOther : ModelConfig → Except PyError String :=
  fun _ => Except.error (PyError.otherError "no such file")

/-- A streaming backend that completes without yielding. -/
def sbOk : ModelConfig → StreamBehavior := fun _ => { frags := [], outcome := StreamOutcome.success }

/-- A streaming backend that raises a non-`RuntimeError` before output. -/
def sbOther : ModelConfig → StreamBehavior :=
  fun _ => { frags := [], outcome := StreamOutcome.failOther "no such file" }

/-- A streaming backend that yields two fragments, then raises
`RuntimeError` mid-stream. -/
def sbMid : ModelConfig → StreamBehavior :=
  fun _ => { frags := ["a", "b"], outcome := StreamOutcome.failRuntime "died" }

/-- A child process that exits with code 1 having produced no output. -/
def procFail : ProcRun := { lines := [], readTimedOut := false, returncode := 1 }

/-- A line extractor that extracts nothing. -/
def extNone : String → Option String := fun _ => none

theorem strLength_pos {s : String} (h : s ≠ "") : 0 < s.length := by
  cases s with
  | mk d =>
    cases d with
    | nil => exact absurd rfl h
    | cons c cs => simp [String.length]

theorem ne_empty_of_strLength_pos {s : String} (h : 0 < s.length) : s ≠ "" := by
  intro hEq
  subst hEq
  simp [String.length] at h

theorem strLength_append (a b : String) : (a ++ b).length = a.length + b.length :=
  String.length_append a b

theorem joinSep_foldl_length (sep : String) (xs : List String) (acc : String) :
    acc.length ≤ (xs.foldl (fun a t => a ++ sep ++ t) acc).length := by
  induction xs generalizing acc with
  | nil => simp
  | cons x xs ih =>
    calc acc.length ≤ (acc ++ sep ++ x).length := by
          rw [strLength_append, strLength_append]; omega
      _ ≤ _ := ih (acc ++ sep ++ x)

theorem joinSep_ne_empty (sep x : String) (xs : List String) (hx : x ≠ "") :
    joinSep sep (x :: xs) ≠ "" := by
  have h1 : 0 < x.length := strLength_pos hx
  have h2 := joinSep_foldl_length sep xs x
  exact ne_empty_of_strLength_pos (lt_of_lt_of_le h1 h2)

theorem joinSep_eq_empty (sep : String) (l : List String) (h : ∀ s ∈ l, s ≠ "")
    (hEq : joinSep sep l = "") : l = [] := by
  cases l with
  | nil => rfl
  | cons x xs => exact absurd hEq (joinSep_ne_empty sep x xs (h x (by simp)))

theorem foldl_add_map {α : Type} (f : α → Nat) (l : List α) (n : Nat) :
    l.foldl (fun tot a => tot + f a) n = n + (l.map f).sum := by
  induction l generalizing n with
  | nil => simp
  | cons x xs ih => simp [ih, Nat.add_assoc]

/-- C4: whenever the estimated token total exceeds the configured
long-context threshold, classification returns the long-context
scenario with the measured-count/threshold reason, for every match
counter — the keyword scores are never consulted. -/
theorem classify_long_context_short_circuit (S : RoutingSettings) (matcher : Matcher)
    (req : ChatCompletionRequest)
    (h : S.long_context_threshold < estimate_request_tokens req) :
    classify_scenario S matcher req =
      (Scenario.long_context,
        mkLongReason (estimate_request_tokens req) S.long_context_threshold) := by
  simp only [classify_scenario]
  rw [if_pos h]
  rfl

/-- Witness for C4 at a concrete threshold and request. -/
theorem classify_long_context_short_circuit_witness :
    settingsThreshold1.long_context_threshold < estimate_request_tokens reqLong ∧
    classify_scenario settingsThreshold1 matcher0 reqLong =
      (Scenario.long_context,
        mkLongReason (estimate_request_tokens reqLong)
          settingsThreshold1.long_context_threshold) :=
  ⟨by decide, classify_long_context_short_circuit settingsThreshold1 matcher0 reqLong (by decide)⟩

/-- C5: below the long-context threshold, the returned scenario is the
first-match rule of the spec's decision order applied to the four
computed scores and the estimated token count. -/
theorem classify_decision_order_spec (S : RoutingSettings) (matcher : Matcher)
    (req : ChatCompletionRequest)
    (h : estimate_request_tokens req ≤ S.long_context_threshold) :
    (classify_scenario S matcher req).1 =
      specDecisionOrder (routing_scores matcher req).complexS
        (routing_scores matcher req).codeS (routing_scores matcher req).simpleS
        (routing_scores matcher req).moderateS (estimate_request_tokens req) := by
  have hlt : ¬ S.long_context_threshold < estimate_request_tokens req := not_lt.mpr h
  simp only [classify_scenario, specDecisionOrder]
  rw [if_neg hlt]
  split_ifs <;> rfl

/-- Witness for C5 at a concrete request. -/
theorem classify_decision_order_spec_witness :
    (classify_scenario settingsNoOverride matcher0 reqSonnetHi).1 =
      specDecisionOrder (routing_scores matcher0 reqSonnetHi).complexS
        (routing_scores matcher0 reqSonnetHi).codeS
        (routing_scores matcher0 reqSonnetHi).simpleS
        (routing_scores matcher0 reqSonnetHi).moderateS
        (estimate_request_tokens reqSonnetHi) :=
  classify_decision_order_spec settingsNoOverride matcher0 reqSonnetHi (by decide)

/-- C6 counterexample: two messages holding one fenced-code marker each.
The concatenated text holds two code indicators, so the spec-worded
estimator (indicator test on the concatenation) gives 8, but the code
tests indicators per message and gives 6. -/
theorem token_estimate_concat_counterexample :
    estimate_request_tokens reqTwoCodeMsgs = 6 ∧
    spec_estimate_request_tokens reqTwoCodeMsgs = 8 ∧
    estimate_request_tokens reqTwoCodeMsgs ≠ spec_estimate_request_tokens reqTwoCodeMsgs := by
  refine ⟨rfl, rfl, ?_⟩
  decide

/-- C6 (amended): the total estimate is the sum over messages of the
per-text rule — empty text 0, at least two code indicators in that same
text `length/2.5`, otherwise `length/4`, minimum 1 when non-empty — the
code-indicator test being applied to each message's own content. -/
theorem estimate_tokens_per_message_rule (req : ChatCompletionRequest) :
    estimate_request_tokens req =
      (req.messages.map (fun m => spec_estimate_text m.content)).sum := by
  have h : ∀ t, estimate_tokens t = spec_estimate_text t := fun t => rfl
  simp only [estimate_request_tokens]
  rw [foldl_add_map (fun m => estimate_tokens m.content) req.messages 0]
  simp only [h, Nat.zero_add]

/-- C7: evaluated at the failing input — a CLI child process that exits
with code 1 having produced no output — `stream_claude` ends the stream
normally with no fragments and raises nothing, while `stream_http` on a
non-200 status does raise a `RuntimeError` before producing output. -/
theorem stream_claude_swallows_pre_output_failure :
    stream_claude extNone (Except.ok procFail) = ([], StreamEnd.completed) ∧
    procFail.returncode = 1 ∧ procFail.lines = [] ∧
    stream_http extNone (Except.ok { status := 500, body := "boom", lines := [] }) "m" =
      ([], StreamEnd.raised (PyError.runtimeError "HTTP 500 from m: boom")) := by
  refine ⟨rfl, rfl, rfl, ?_⟩
  rfl

theorem not_mem_filter_self (base : List ModelConfig) (p : ModelConfig) :
    p ∉ base.filter (fun m => m.model_id != p.model_id) := by
  intro h
  have h2 := (List.mem_filter.mp h).2
  simp at h2

theorem default_chains_nodup (sc : Scenario) : (DEFAULT_FALLBACK_CHAINS sc).Nodup := by
  cases sc <;> decide

theorem get_fallback_chain_none (S : RoutingSettings) (sc : Scenario)
    (h : S.fallback_overrides sc = none) :
    get_fallback_chain S sc = DEFAULT_FALLBACK_CHAINS sc := by
  simp [get_fallback_chain, h]

theorem route_request_auto_props (S : RoutingSettings) (sc : Scenario) (reason : String) :
    (route_request_auto S sc reason).model ∉ (route_request_auto S sc reason).fallback_chain ∧
    (S.fallback_overrides sc = none → (route_request_auto S sc reason).fallback_chain.Nodup) := by
  refine ⟨not_mem_filter_self _ _, fun h => ?_⟩
  show ((get_fallback_chain S sc).filter _).Nodup
  rw [get_fallback_chain_none S sc h]
  exact (default_chains_nodup sc).filter _

/-- C2 counterexample: with the per-scenario fallback-chain override
`["haiku", "haiku"]` (expressible through the `ROUTING_FALLBACK_*`
configuration) and an explicit sonnet request, the routing decision's
fallback chain is `[HAIKU, HAIKU]` — it contains a duplicate entry,
refuting the no-duplicates half of the claim. -/
theorem fallback_chain_duplicate_counterexample :
    (route_request settingsDupOverride matcher0 reqSonnetHi).fallback_chain = [HAIKU, HAIKU] ∧
    ¬ (route_request settingsDupOverride matcher0 reqSonnetHi).fallback_chain.Nodup ∧
    (route_request settingsDupOverride matcher0 reqSonnetHi).model = SONNET := by
  have h1 : (route_request settingsDupOverride matcher0 reqSonnetHi).fallback_chain
      = [HAIKU, HAIKU] := rfl
  refine ⟨h1, ?_, rfl⟩
  rw [h1]
  decide

/-- C2 (amended): for every configuration, matcher and request, the
fallback chain never contains the primary model (every entry with the
primary's model id is filtered out); and whenever no fallback-chain
override is configured for the decided scenario, the chain — a filtered
built-in default — contains no duplicates.  An override may introduce
duplicates, as the counterexample shows. -/
theorem fallback_chain_primary_free_and_default_nodup (S : RoutingSettings)
    (matcher : Matcher) (req : ChatCompletionRequest) :
    (route_request S matcher req).model ∉ (route_request S matcher req).fallback_chain ∧
    (S.fallback_overrides (route_request S matcher req).scenario = none →
      (route_request S matcher req).fallback_chain.Nodup) := by
  cases hmm : S.model_map (pyStrip (pyLower req.model)) with
  | none =>
    simp only [route_request, hmm]
    exact route_request_auto_props S _ _
  | some explicit =>
    simp only [route_request, hmm]
    by_cases hif : pyStrip (pyLower req.model) ≠ "auto" ∧ pyStrip (pyLower req.model) ≠ "smart"
        ∧ pyStrip (pyLower req.model) ≠ "router"
    · rw [if_pos hif]
      refine ⟨not_mem_filter_self _ _, fun h => ?_⟩
      show ((get_fallback_chain S _).filter _).Nodup
      rw [get_fallback_chain_none S _ h]
      exact (default_chains_nodup _).filter _
    · rw [if_neg hif]
      exact route_request_auto_props S _ _

/-- Witness for C2 (amended): with no overrides configured, the explicit
sonnet request's chain omits sonnet and has no duplicates. -/
theorem fallback_chain_primary_free_witness :
    (route_request settingsNoOverride matcher0 reqSonnetHi).model ∉
        (route_request settingsNoOverride matcher0 reqSonnetHi).fallback_chain ∧
    (route_request settingsNoOverride matcher0 reqSonnetHi).fallback_chain.Nodup := by
  have h := fallback_chain_primary_free_and_default_nodup settingsNoOverride matcher0 reqSonnetHi
  exact ⟨h.1, h.2 rfl⟩

theorem conversation_parts_eq_nil_iff (req : ChatCompletionRequest) :
    conversation_parts req = [] ↔ ∀ m ∈ req.messages, m.role = Role.system := by
  rw [conversation_parts, List.filterMap_eq_nil_iff]
  constructor
  · intro h m hm
    have hf := h m hm
    rcases m with ⟨r, c⟩
    cases r
    · rfl
    · exact absurd hf (by simp)
    · exact absurd hf (by simp)
  · intro h m hm
    have hr := h m hm
    rcases m with ⟨r, c⟩
    cases r
    · rfl
    · exact Role.noConfusion hr
    · exact Role.noConfusion hr

theorem conversation_parts_elems_ne_empty (req : ChatCompletionRequest) :
    ∀ s ∈ conversation_parts req, s ≠ "" := by
  intro s hs
  rw [conversation_parts, List.mem_filterMap] at hs
  obtain ⟨m, hm, hf⟩ := hs
  rcases m with ⟨r, c⟩
  cases r
  · exact absurd hf (by simp)
  · have hv : "Human: " ++ c = s := by simpa using hf
    subst hv
    apply ne_empty_of_strLength_pos
    rw [strLength_append]
    have h7 : ("Human: " : String).length = 7 := rfl
    omega
  · have hv : "Assistant: " ++ c = s := by simpa using hf
    subst hv
    apply ne_empty_of_strLength_pos
    rw [strLength_append]
    have h11 : ("Assistant: " : String).length = 11 := rfl
    omega

theorem to_prompt_empty_iff (req : ChatCompletionRequest) :
    (to_prompt req).2 = "" ↔
      ((∀ m ∈ req.messages, m.role = Role.system) ∧ ∀ m ∈ req.messages, m.content = "") := by
  simp only [to_prompt]
  by_cases hc : conversation_parts req = []
  · rw [if_pos hc]
    constructor
    · intro hEq
      refine ⟨(conversation_parts_eq_nil_iff req).mp hc, ?_⟩
      have hall : ∀ s ∈ (req.messages.map (fun m => m.content)).filter (fun c => c != ""),
          s ≠ "" := by
        intro s hsm
        have := (List.mem_filter.mp hsm).2
        simpa using this
      have hnil := joinSep_eq_empty "\n\n" _ hall hEq
      rw [List.filter_eq_nil_iff] at hnil
      intro m hm
      have := hnil m.content (List.mem_map.mpr ⟨m, hm, rfl⟩)
      simpa using this
    · intro h
      have : (req.messages.map (fun m => m.content)).filter (fun c => c != "") = [] := by
        rw [List.filter_eq_nil_iff]
        intro c hcm
        obtain ⟨m, hm, hmc⟩ := List.mem_map.mp hcm
        subst hmc
        simp [h.2 m hm]
      rw [this]
      rfl
  · rw [if_neg hc]
    constructor
    · intro hEq
      exfalso
      cases hl : conversation_parts req with
      | nil => exact hc hl
      | cons x xs =>
        rw [hl] at hEq
        exact joinSep_ne_empty "\n\n" x xs
          (conversation_parts_elems_ne_empty req x (hl ▸ List.mem_cons_self x xs)) hEq
    · intro h
      exact absurd ((conversation_parts_eq_nil_iff req).mpr h.1) hc

/-- C8 counterexample: a request whose only message is a user message
with empty content — no message carries non-empty content, yet the
prompt builds to `"Human: "`, the 400 gate does not fire, and the
request is routed and served. -/
theorem empty_content_not_rejected_counterexample :
    (∀ m ∈ reqEmptyUser.messages, m.content = "") ∧
    (to_prompt reqEmptyUser).2 = "Human: " ∧
    chat_completions settingsNoOverride matcher0 true SONNET backendOk sbOk reqEmptyUser =
      HttpOutcome.completion "claude-haiku-4-5-20251001" "ok" := by
  refine ⟨?_, rfl, rfl⟩
  decide

/-- C8 (amended): the endpoint rejects a request with status 400 —
before any routing or classification, for every backend, matcher and
configuration — exactly when the request has no user or assistant
message at all and every message content is empty.  In particular a
request with any non-empty content is never rejected by this check, but
a user or assistant message of empty content also escapes rejection. -/
theorem request_rejection_characterization (S : RoutingSettings) (matcher : Matcher)
    (smart : Bool) (proxyModel : ModelConfig)
    (backend : ModelConfig → Except PyError String) (sb : ModelConfig → StreamBehavior)
    (req : ChatCompletionRequest) :
    chat_completions S matcher smart proxyModel backend sb req =
        HttpOutcome.clientError 400 "No prompt content in messages" ↔
      ((∀ m ∈ req.messages, m.role = Role.system) ∧ ∀ m ∈ req.messages, m.content = "") := by
  rw [← to_prompt_empty_iff req]
  by_cases hp : (to_prompt req).2 = ""
  · simp only [chat_completions]
    rw [if_pos hp]
    exact iff_of_true rfl hp
  · simp only [chat_completions]
    rw [if_neg hp]
    refine iff_of_false ?_ hp
    cases hs : req.stream
    · rcases hr : run_with_fallback S.max_fallback_attempts
          (resolve_routing S matcher smart proxyModel req) backend with ⟨res, tried⟩
      cases res <;> simp [hs, hr]
    · simp [hs]

theorem rwfLoop_cons_break (backend : ModelConfig → Except PyError String) (ma : Nat)
    (mc : ModelConfig) (rest : List ModelConfig) (i : Nat) (le : Option String) (m : String)
    (hmc : backend mc = Except.error (PyError.runtimeError m)) (hi : ma ≤ i) :
    rwfLoop backend ma (mc :: rest) i le = (LoopExit.fellThrough (some m), [mc]) := by
  simp only [rwfLoop, hmc]
  rw [if_pos hi]

theorem rwfLoop_cons_runtime (backend : ModelConfig → Except PyError String) (ma : Nat)
    (mc : ModelConfig) (rest : List ModelConfig) (i : Nat) (le : Option String) (m : String)
    (hmc : backend mc = Except.error (PyError.runtimeError m)) (hi : ¬ ma ≤ i) :
    rwfLoop backend ma (mc :: rest) i le =
      ((rwfLoop backend ma rest (i + 1) (some m)).1,
        mc :: (rwfLoop backend ma rest (i + 1) (some m)).2) := by
  simp only [rwfLoop, hmc]
  rw [if_neg hi]

theorem rwfLoop_all_runtime (backend : ModelConfig → Except PyError String) (ma : Nat)
    (em : ModelConfig → String) :
    ∀ (l : List ModelConfig) (i : Nat) (le : Option String),
      (∀ mc ∈ l, backend mc = Except.error (PyError.runtimeError (em mc))) →
      l.length + i ≤ ma + 1 →
      rwfLoop backend ma l i le =
        (LoopExit.fellThrough
          (match l.getLast? with
           | some mc => some (em mc)
           | none => le), l) := by
  intro l
  induction l with
  | nil => intro i le _ _; rfl
  | cons mc rest ih =>
    intro i le hall hlen
    have hmc := hall mc (by simp)
    cases rest with
    | nil =>
      by_cases hi : ma ≤ i
      · rw [rwfLoop_cons_break backend ma mc [] i le _ hmc hi]
        simp
      · rw [rwfLoop_cons_runtime backend ma mc [] i le _ hmc hi]
        simp [rwfLoop]
    | cons m2 rest2 =>
      have hi : ¬ ma ≤ i := by
        simp only [List.length_cons] at hlen
        omega
      have ihh := ih (i + 1) (some (em mc))
        (fun x hx => hall x (by simp [hx]))
        (by simp only [List.length_cons] at hlen ⊢; omega)
      rw [rwfLoop_cons_runtime backend ma mc (m2 :: rest2) i le _ hmc hi, ihh]
      simp [List.getLast?_cons]

theorem rwfLoop_tried_take (backend : ModelConfig → Except PyError String) (ma : Nat) :
    ∀ (l : List ModelConfig) (i : Nat) (le : Option String),
      ∃ n, (rwfLoop backend ma l i le).2 = l.take n := by
  intro l
  induction l with
  | nil => intro i le; exact ⟨0, rfl⟩
  | cons mc rest ih =>
    intro i le
    cases hb : backend mc with
    | ok t => exact ⟨1, by simp [rwfLoop, hb]⟩
    | error e =>
      cases e with
      | runtimeError m =>
        by_cases hi : ma ≤ i
        · exact ⟨1, by simp [rwfLoop, hb, hi]⟩
        · obtain ⟨n, hn⟩ := ih (i + 1) (some m)
          exact ⟨n + 1, by simp [rwfLoop, hb, hi, hn]⟩
      | otherError m => exact ⟨1, by simp [rwfLoop, hb]⟩

theorem getD_cons_length (l : List ModelConfig) : ∀ (a d : ModelConfig),
    (a :: l).getD l.length d = l.getLastD a := by
  induction l with
  | nil => intro a d; rfl
  | cons x xs ih =>
    intro a d
    show (a :: x :: xs).getD (xs.length + 1) d = (x :: xs).getLastD a
    rw [List.getD_cons_succ, ih x d, List.getLastD_cons a x xs]

theorem run_with_fallback_tried (ma : Nat) (decision : RoutingDecision)
    (backend : ModelConfig → Except PyError String) :
    (run_with_fallback ma decision backend).2 =
      (rwfLoop backend ma (decision.model :: decision.fallback_chain.take ma) 0 none).2 := by
  simp only [run_with_fallback]
  rcases h : rwfLoop backend ma (decision.model :: decision.fallback_chain.take ma) 0 none
    with ⟨res, tried⟩
  cases res <;> simp

theorem aggregateMsg_cons_eq (d : ModelConfig) (tl : List ModelConfig) (ma : Nat)
    (h : tl.length ≤ ma) (m : String) :
    aggregateMsg (d :: tl) ma (some m) = mkAggregateMsg (tl.getLastD d).name m := by
  have h2 : (d :: tl).getD (min ma ((d :: tl).length - 1)) OPUS = tl.getLastD d := by
    have h1 : (d :: tl).length - 1 = tl.length := rfl
    rw [h1, Nat.min_eq_right h, getD_cons_length]
  simp only [aggregateMsg, mkAggregateMsg, optErrStr, h2]

/-- C3: the non-streaming orchestrator attempts
`[primary] + fallbackChain[:maxFallbackAttempts]` in order: a primary
success returns the primary's text with no fallback candidate invoked
(attempt list `[primary]`); if every budgeted candidate fails with a
recoverable error, it raises the single aggregate error naming the last
candidate actually tried and its error, having invoked exactly the
budgeted chain; and in every run the invoked models form a prefix of
the budgeted chain, so candidates beyond the budget are never invoked. -/
theorem run_with_fallback_primary_success_and_exhaustion (ma : Nat)
    (decision : RoutingDecision) (backend : ModelConfig → Except PyError String)
    (t : String) (em : ModelConfig → String) :
    (backend decision.model = Except.ok t →
      run_with_fallback ma decision backend =
        (RunResult.success t decision.model, [decision.model])) ∧
    ((∀ mc ∈ decision.model :: decision.fallback_chain.take ma,
        backend mc = Except.error (PyError.runtimeError (em mc))) →
      run_with_fallback ma decision backend =
        (RunResult.exhausted
          (mkAggregateMsg ((decision.fallback_chain.take ma).getLastD decision.model).name
            (em ((decision.fallback_chain.take ma).getLastD decision.model))),
          decision.model :: decision.fallback_chain.take ma)) ∧
    (∃ n, (run_with_fallback ma decision backend).2 =
      (decision.model :: decision.fallback_chain.take ma).take n) := by
  refine ⟨?_, ?_, ?_⟩
  · intro h
    simp [run_with_fallback, rwfLoop, h]
  · intro hall
    have htl : (decision.fallback_chain.take ma).length ≤ ma := by
      rw [List.length_take]
      omega
    have hlen : (decision.model :: decision.fallback_chain.take ma).length + 0 ≤ ma + 1 := by
      simp only [List.length_cons]
      omega
    have hrun := rwfLoop_all_runtime backend ma em _ 0 none hall hlen
    have hlast : (decision.model :: decision.fallback_chain.take ma).getLast? =
        some ((decision.fallback_chain.take ma).getLastD decision.model) := by
      rw [List.getLast?_cons, List.getLastD_eq_getLast?]
    rw [hlast] at hrun
    simp only [run_with_fallback, hrun]
    rw [aggregateMsg_cons_eq _ _ _ htl]
  · rw [run_with_fallback_tried]
    exact rwfLoop_tried_take backend ma _ 0 none

/-- Witness for C3: with the sonnet/haiku/opus fixture chain, an
all-succeeding backend stops at the primary, and an all-failing backend
exhausts the chain citing opus, the last model tried. -/
theorem run_with_fallback_primary_success_and_exhaustion_witness :
    run_with_fallback 2 decFix backendOk = (RunResult.success "ok" SONNET, [SONNET]) ∧
    run_with_fallback 2 decFix backendRuntimeAll =
      (RunResult.exhausted "All models failed. Last error from opus: boom-opus",
        [SONNET, HAIKU, OPUS]) := by
  constructor
  · exact (run_with_fallback_primary_success_and_exhaustion 2 decFix backendOk "ok"
      (fun mc => "boom-" ++ mc.name)).1 rfl
  · have h := (run_with_fallback_primary_success_and_exhaustion 2 decFix backendRuntimeAll "ok"
      (fun mc => "boom-" ++ mc.name)).2.1 (fun mc _ => rfl)
    exact h.trans rfl

/-- C9: both orchestrators advance the fallback chain only on
`RuntimeError`; an attempt that raises any other exception class (such
as the `FileNotFoundError` of CLI resolution) propagates it at once —
the attempt list stops at the primary, no fallback candidate runs, and
the propagated error is not the aggregate all-models-failed error. -/
theorem non_runtime_error_propagates (ma : Nat) (decision : RoutingDecision)
    (backend : ModelConfig → Except PyError String) (sb : ModelConfig → StreamBehavior)
    (m m' : String) :
    (backend decision.model = Except.error (PyError.otherError m) →
      run_with_fallback ma decision backend = (RunResult.propagated m, [decision.model])) ∧
    ((sb decision.model).outcome = StreamOutcome.failOther m' →
      stream_with_fallback ma decision sb =
        ((sb decision.model).frags.map (fun t => (t, decision.model)),
          StreamEnd.raised (PyError.otherError m'), [decision.model])) := by
  constructor
  · intro h
    simp [run_with_fallback, rwfLoop, h]
  · intro h
    simp [stream_with_fallback, swfLoop, h]

/-- Witness for C9 at the fixture decision with failing backends. -/
theorem non_runtime_error_propagates_witness :
    run_with_fallback 2 decFix backendOther = (RunResult.propagated "no such file", [SONNET]) ∧
    stream_with_fallback 2 decFix sbOther =
      ([], StreamEnd.raised (PyError.otherError "no such file"), [SONNET]) := by
  have h := non_runtime_error_propagates 2 decFix backendOther sbOther "no such file" "no such file"
  exact ⟨(h.1 rfl).trans rfl, (h.2 rfl).trans rfl⟩

theorem swfLoop_shape (sb : ModelConfig → StreamBehavior) (ma : Nat) :
    ∀ (l : List ModelConfig) (i : Nat) (le : Option String),
      ∃ M : ModelConfig,
        (∀ p ∈ (swfLoop sb ma l i le).1, p.2 = M) ∧
        ((swfLoop sb ma l i le).1 = [] ∨
          (swfLoop sb ma l i le).1 = (sb M).frags.map (fun t => (t, M)) ∨
          (∃ e, (swfLoop sb ma l i le).1
              = (sb M).frags.map (fun t => (t, M)) ++ [(errFragment e, M)] ∧
            (swfLoop sb ma l i le).2.1 = StreamEnd.completed)) ∧
        (∀ mc ∈ (swfLoop sb ma l i le).2.2.dropLast,
          (sb mc).frags = [] ∧ ∃ e, (sb mc).outcome = StreamOutcome.failRuntime e) := by
  intro l
  induction l with
  | nil =>
    intro i le
    exact ⟨OPUS, by simp [swfLoop], by simp [swfLoop], by simp [swfLoop]⟩
  | cons mc rest ih =>
    intro i le
    cases hout : (sb mc).outcome with
    | success =>
      refine ⟨mc, ?_, ?_, ?_⟩
      · intro p hp
        simp only [swfLoop, hout] at hp
        obtain ⟨t, _, hpt⟩ := List.mem_map.mp hp
        rw [← hpt]
      · right; left
        simp [swfLoop, hout]
      · simp [swfLoop, hout]
    | failOther m =>
      refine ⟨mc, ?_, ?_, ?_⟩
      · intro p hp
        simp only [swfLoop, hout] at hp
        obtain ⟨t, _, hpt⟩ := List.mem_map.mp hp
        rw [← hpt]
      · right; left
        simp [swfLoop, hout]
      · simp [swfLoop, hout]
    | failRuntime m =>
      by_cases hfr : (sb mc).frags = []
      · by_cases hi : ma ≤ i
        · refine ⟨mc, ?_, ?_, ?_⟩
          · intro p hp
            simp [swfLoop, hout, hfr, hi] at hp
          · left
            simp [swfLoop, hout, hfr, hi]
          · simp [swfLoop, hout, hfr, hi]
        · obtain ⟨M, h1, h2, h3⟩ := ih (i + 1) (some m)
          have hre1 : (swfLoop sb ma (mc :: rest) i le).1 =
              (swfLoop sb ma rest (i + 1) (some m)).1 := by
            simp [swfLoop, hout, hfr, hi]
          have hre2 : (swfLoop sb ma (mc :: rest) i le).2.1 =
              (swfLoop sb ma rest (i + 1) (some m)).2.1 := by
            simp [swfLoop, hout, hfr, hi]
          have hre3 : (swfLoop sb ma (mc :: rest) i le).2.2 =
              mc :: (swfLoop sb ma rest (i + 1) (some m)).2.2 := by
            simp [swfLoop, hout, hfr, hi]
          refine ⟨M, ?_, ?_, ?_⟩
          · intro p hp
            rw [hre1] at hp
            exact h1 p hp
          · rw [hre1, hre2]
            exact h2
          · rw [hre3]
            intro x hx
            cases hrt : (swfLoop sb ma rest (i + 1) (some m)).2.2 with
            | nil =>
              rw [hrt] at hx
              simp at hx
            | cons y ys =>
              rw [hrt, List.dropLast_cons₂] at hx
              rcases List.mem_cons.mp hx with hx1 | hx2
              · subst hx1
                exact ⟨hfr, m, hout⟩
              · apply h3
                rw [hrt]
                exact hx2
      · refine ⟨mc, ?_, ?_, ?_⟩
        · intro p hp
          simp only [swfLoop, hout] at hp
          rw [if_pos hfr] at hp
          rcases List.mem_append.mp hp with hp1 | hp2
          · obtain ⟨t, _, hpt⟩ := List.mem_map.mp hp1
            rw [← hpt]
          · have : p = (errFragment m, mc) := by simpa using hp2
            rw [this]
        · right; right
          refine ⟨m, ?_, ?_⟩
          · simp only [swfLoop, hout]
            rw [if_pos hfr]
          · simp only [swfLoop, hout]
            rw [if_pos hfr]
        · simp [swfLoop, hout, hfr]

/-- C1: in every streamed fallback run, all yielded fragments are
attributed to a single model M: the output is either empty, exactly M's
fragments, or M's fragments followed by one final visible error
fragment attributed to M with the stream then terminating normally; and
every attempted model before the last one yielded no fragment and
failed with a recoverable error — only pre-output recoverable failures
advance the chain, and no content from a different model ever follows
output that has begun. -/
theorem stream_fallback_no_model_switch (ma : Nat) (decision : RoutingDecision)
    (sb : ModelConfig → StreamBehavior) :
    ∃ M : ModelConfig,
      (∀ p ∈ (stream_with_fallback ma decision sb).1, p.2 = M) ∧
      ((stream_with_fallback ma decision sb).1 = [] ∨
        (stream_with_fallback ma decision sb).1 = (sb M).frags.map (fun t => (t, M)) ∨
        (∃ e, (stream_with_fallback ma decision sb).1
            = (sb M).frags.map (fun t => (t, M)) ++ [(errFragment e, M)] ∧
          (stream_with_fallback ma decision sb).2.1 = StreamEnd.completed)) ∧
      (∀ mc ∈ (stream_with_fallback ma decision sb).2.2.dropLast,
        (sb mc).frags = [] ∧ ∃ e, (sb mc).outcome = StreamOutcome.failRuntime e) :=
  swfLoop_shape sb ma (decision.model :: decision.fallback_chain.take ma) 0 none

/-- Witness for C1: a backend that yields two fragments and then fails
mid-stream produces sonnet-attributed content plus one trailing
sonnet-attributed error fragment, all from a single model. -/
theorem stream_fallback_no_model_switch_witness :
    (stream_with_fallback 2 decFix sbMid).1 =
      [("a", SONNET), ("b", SONNET), ("\n\n[Error: died]", SONNET)] ∧
    ∃ M : ModelConfig, ∀ p ∈ (stream_with_fallback 2 decFix sbMid).1, p.2 = M := by
  refine ⟨rfl, ?_⟩
  obtain ⟨M, h1, _, _⟩ := stream_fallback_no_model_switch 2 decFix sbMid
  exact ⟨M, h1⟩

/-- C10: the SSE stream's first chunk is the role chunk carrying the
routing decision's primary model id — it is emitted before any backend
attempt, so it names the primary even when every content fragment comes
from a fallback model — and each following content chunk carries the
model id of the pair yielded by the orchestrator for it. -/
theorem sse_first_chunk_primary_model (ma : Nat) (decision : RoutingDecision)
    (sb : ModelConfig → StreamBehavior) :
    ∃ tail,
      (stream_sse ma decision sb).1 =
        SSEItem.roleChunk decision.model.model_id ::
          ((stream_with_fallback ma decision sb).1.map
            (fun p => SSEItem.contentChunk p.1 p.2.model_id) ++ tail) := by
  cases he : (stream_with_fallback ma decision sb).2.1 with
  | completed =>
    refine ⟨[SSEItem.doneChunk
        (lastModelId decision.model.model_id (stream_with_fallback ma decision sb).1),
      SSEItem.doneSentinel], ?_⟩
    simp [stream_sse, he]
  | raised e =>
    cases e with
    | runtimeError m =>
      refine ⟨[SSEItem.contentChunk (errFragment m)
          (lastModelId decision.model.model_id (stream_with_fallback ma decision sb).1),
        SSEItem.doneChunk
          (lastModelId decision.model.model_id (stream_with_fallback ma decision sb).1),
        SSEItem.doneSentinel], ?_⟩
      simp [stream_sse, he]
    | otherError m =>
      refine ⟨[], ?_⟩
      simp [stream_sse, he]

/-- Witness for C10 at the mid-stream-failure fixture. -/
theorem sse_first_chunk_primary_model_witness :
    (stream_sse 2 decFix sbMid).1.head? = some (SSEItem.roleChunk "claude-sonnet-4-6") ∧
    ∃ tail,
      (stream_sse 2 decFix sbMid).1 =
        SSEItem.roleChunk decFix.model.model_id ::
          ((stream_with_fallback 2 decFix sbMid).1.map
            (fun p => SSEItem.contentChunk p.1 p.2.model_id) ++ tail) := by
  refine ⟨rfl, ?_⟩
  exact sse_first_chunk_primary_model 2 decFix sbMid
